import Mathlib

namespace PW

/-- JSON-like values as produced by parsing the graph dump. Numbers keep the
Python distinction between `int` and `float`; `float` payloads are rationals,
which is exact for the values the program compares (`1.0`). -/
inductive JVal where
  | null
  | bool (b : Bool)
  | int (n : Int)
  | float (q : ℚ)
  | str (s : String)
  | arr (items : List JVal)
  | obj (fields : List (String × JVal))
deriving Repr, Inhabited

/-- Python exceptions that the modelled operations can raise. -/
inductive PyErr where
  | attributeError
  | keyError
  | typeError
  | indexError
deriving Repr, DecidableEq

def isNum : JVal → Bool
  | .bool _ | .int _ | .float _ => true
  | _ => false

/-- Numeric value of a Python number (`True == 1`, `1 == 1.0`). -/
def toQ : JVal → ℚ
  | .bool b => if b then 1 else 0
  | .int n => (n : ℚ)
  | .float q => q
  | _ => 0

mutual
/-- Python `==`. Numbers compare by numeric value across `bool`/`int`/`float`;
mismatched non-numeric types compare unequal without raising. Model dicts keep
a canonical key order, so field-wise comparison models Python dict equality. -/
def pyEq : JVal → JVal → Bool
  | .null, .null => true
  | .str s, .str t => s == t
  | .arr xs, .arr ys => pyEqList xs ys
  | .obj fs, .obj gs => pyEqFields fs gs
  | a, b => isNum a && isNum b && toQ a == toQ b

def pyEqList : List JVal → List JVal → Bool
  | [], [] => true
  | x :: xs, y :: ys => pyEq x y && pyEqList xs ys
  | _, _ => false

def pyEqFields : List (String × JVal) → List (String × JVal) → Bool
  | [], [] => true
  | (k, v) :: fs, (k2, w) :: gs => k == k2 && pyEq v w && pyEqFields fs gs
  | _, _ => false
end

/-- Python truthiness of a value. -/
def truthy : JVal → Bool
  | .null => false
  | .bool b => b
  | .int n => n != 0
  | .float q => q != 0
  | .str s => s != ""
  | .arr xs => !xs.isEmpty
  | .obj fs => !fs.isEmpty

/-- Hashability: JSON scalars are hashable, lists/dicts are not. -/
def hashable : JVal → Bool
  | .arr _ | .obj _ => false
  | _ => true

def isObj : JVal → Bool
  | .obj _ => true
  | _ => false

def isArr : JVal → Bool
  | .arr _ => true
  | _ => false

/-- First binding of a key in a model dict (model dicts have unique keys). -/
def objLookup : List (String × JVal) → String → Option JVal
  | [], _ => none
  | (k2, v) :: fs, k => if k2 == k then some v else objLookup fs k

/-- Lookup of a string key on a value known to be a dict; `none` otherwise. -/
def jLookup (v : JVal) (k : String) : Option JVal :=
  match v with
  | .obj fs => objLookup fs k
  | _ => none

/-- Pure counterpart of `v.get(k, d)` for dict `v`. -/
def getD (v : JVal) (k : String) (d : JVal) : JVal :=
  match jLookup v k with
  | some w => w
  | none => d

/-- Python `v.get(k, d)`: `AttributeError` unless `v` is a dict. -/
def pyGet (v : JVal) (k : String) (d : JVal) : Except PyErr JVal :=
  match v with
  | .obj _ => .ok (getD v k d)
  | _ => .error .attributeError

/-- Character-list version of "needle starts the haystack". -/
def charsStartWith : List Char → List Char → Bool
  | [], _ => true
  | _ :: _, [] => false
  | a :: as, b :: bs => a == b && charsStartWith as bs

/-- Character-list version of "needle occurs inside the haystack". -/
def charsContain (needle : List Char) (hay : List Char) : Bool :=
  charsStartWith needle hay ||
    match hay with
    | [] => false
    | _ :: rest => charsContain needle rest

/-- Python `needle in hay` for strings (substring containment). -/
def strContains (hay needle : String) : Bool :=
  charsContain needle.data hay.data

/-- Python `needle in hay`: substring test on strings, element membership on
lists, key membership on dicts (the needle must be hashable), `TypeError` on
anything else. -/
def pyIn (needle hay : JVal) : Except PyErr Bool :=
  match hay with
  | .str s =>
    match needle with
    | .str n => .ok (strContains s n)
    | _ => .error .typeError
  | .arr xs => .ok (xs.any fun x => pyEq x needle)
  | .obj fs =>
    if hashable needle then .ok (fs.any fun kv => pyEq (.str kv.1) needle)
    else .error .typeError
  | _ => .error .typeError

/-- Python subscript `v[k]`: dict lookup (`KeyError` when absent), list/string
indexing by integer with negative-index wraparound (`IndexError` out of range,
`TypeError` for a non-integer index), `TypeError` on non-subscriptable values. -/
def pySubscript (v k : JVal) : Except PyErr JVal :=
  match v with
  | .obj fs =>
    match k with
    | .str s =>
      match objLookup fs s with
      | some w => .ok w
      | none => .error .keyError
    | _ => if hashable k then .error .keyError else .error .typeError
  | .arr xs =>
    match k with
    | .int n =>
      let i : Int := if n < 0 then n + xs.length else n
      if h : 0 ≤ i ∧ i.toNat < xs.length then .ok (xs.get ⟨i.toNat, h.2⟩)
      else .error .indexError
    | .bool b =>
      let i : Nat := if b then 1 else 0
      if h : i < xs.length then .ok (xs.get ⟨i, h⟩) else .error .indexError
    | _ => .error .typeError
  | .str s =>
    match k with
    | .int n =>
      let i : Int := if n < 0 then n + s.data.length else n
      if h : 0 ≤ i ∧ i.toNat < s.data.length then
        .ok (.str (String.mk [s.data.get ⟨i.toNat, h.2⟩]))
      else .error .indexError
    | _ => .error .typeError
  | _ => .error .typeError

/-- Python iteration `for x in v`: list elements, string characters (as
one-character strings), dict keys; `TypeError` on non-iterables. -/
def pyIter (v : JVal) : Except PyErr (List JVal) :=
  match v with
  | .arr xs => .ok xs
  | .str s => .ok (s.data.map fun c => .str (String.mk [c]))
  | .obj fs => .ok (fs.map fun kv => .str kv.1)
  | _ => .error .typeError


/-- Python dict insertion with overwrite semantics (`d[k] = v`); the key must
be hashable. Overwriting keeps the key at its original position, as CPython
dicts do. -/
def dictInsert (d : List (JVal × JVal)) (k v : JVal) : Except PyErr (List (JVal × JVal)) :=
  if hashable k then
    if d.any fun p => pyEq p.1 k then
      .ok (d.map fun p => if pyEq p.1 k then (p.1, v) else p)
    else .ok (d ++ [(k, v)])
  else .error .typeError

/-- Python `k in d` for a model dict keyed by arbitrary values. -/
def dictHasKey (d : List (JVal × JVal)) (k : JVal) : Bool :=
  d.any fun p => pyEq p.1 k

/-- Value bound to `k` in a model dict, if any. -/
def dictFind (d : List (JVal × JVal)) (k : JVal) : Option JVal :=
  (d.find? fun p => pyEq p.1 k).map Prod.snd

/-- One dict comprehension of `PipeWireGraph.__init__`:
`{item["id"]: item for item in graph_data if tag in item.get("type", "")}`. -/
def buildIndex (tag : String) : List JVal → List (JVal × JVal) → Except PyErr (List (JVal × JVal))
  | [], acc => .ok acc
  | item :: rest, acc => do
    let t ← pyGet item "type" (.str "")
    let b ← pyIn (.str tag) t
    if b then do
      let i ← pySubscript item (.str "id")
      let acc2 ← dictInsert acc i item
      buildIndex tag rest acc2
    else buildIndex tag rest acc

/-- The structured graph view: `self.nodes` and `self.links` of `PipeWireGraph`. -/
structure PipeWireGraph where
  nodes : List (JVal × JVal)
  links : List (JVal × JVal)
deriving Repr

/-- Model of `PipeWireGraph.__init__(graph_data)`. -/
def PipeWireGraph.build (graph_data : List JVal) : Except PyErr PipeWireGraph := do
  let nodes ← buildIndex "Node" graph_data []
  let links ← buildIndex "Link" graph_data []
  pure ⟨nodes, links⟩

/-- Loop body of `_find_node_by_name` over `graph.nodes.values()`. -/
def findLoop (name : String) : List JVal → Except PyErr JVal
  | [] => .ok .null
  | node :: rest => do
    let info ← pyGet node "info" (.obj [])
    let props ← pyGet info "props" (.obj [])
    let nn ← pyGet props "node.name" (.str "")
    let b ← pyIn (.str name) nn
    if b then .ok node else findLoop name rest

/-- Model of `PipeWireMonitor._find_node_by_name`; `JVal.null` models the
`None` returned when no node matches. -/
def find_node_by_name (graph : PipeWireGraph) (name : String) : Except PyErr JVal :=
  findLoop name (graph.nodes.map Prod.snd)

/-- Model of `isinstance(value, int)`; Python `bool` is a subtype of `int`. -/
def pyIsInt : JVal → Bool
  | .int _ | .bool _ => true
  | _ => false

/-- Model of `_extract_rate_from_value` inside `_get_node_sample_rate`. Total:
a dict resolves to its `"default"` field (or `None`), an integer to itself,
anything else to `None`. -/
def extract_rate_from_value (value : JVal) : JVal :=
  match value with
  | .obj _ => getD value "default" .null
  | _ => if pyIsInt value then value else .null

/-- The `EnumFormat` fallback block of `_get_node_sample_rate`, reached when
the `Format` group is absent or falsy. -/
def sample_rate_enum_fallback (params : JVal) : Except PyErr JVal := do
  let hasEnum ← pyIn (.str "EnumFormat") params
  let enumTruthy ←
    if hasEnum then do
      let f ← pySubscript params (.str "EnumFormat")
      pure (truthy f)
    else pure false
  if hasEnum && enumTruthy then do
    let fmts ← pySubscript params (.str "EnumFormat")
    let first ← pySubscript fmts (.int 0)
    let rate ← pyGet first "rate" .null
    pure (extract_rate_from_value rate)
  else pure .null

/-- Model of `PipeWireMonitor._get_node_sample_rate`; `JVal.null` models the
`None` result. -/
def get_node_sample_rate (node : JVal) : Except PyErr JVal := do
  let info ← pyGet node "info" (.obj [])
  let params ← pyGet info "params" (.obj [])
  let hasFormat ← pyIn (.str "Format") params
  let fmtTruthy ←
    if hasFormat then do
      let f ← pySubscript params (.str "Format")
      pure (truthy f)
    else pure false
  if hasFormat && fmtTruthy then do
    let fmts ← pySubscript params (.str "Format")
    let format_info ← pySubscript fmts (.int 0)
    let hasAudio ← pyIn (.str "audio") format_info
    if hasAudio then do
      let audio ← pyGet format_info "audio" (.obj [])
      let rate ← pyGet audio "rate" .null
      pure (extract_rate_from_value rate)
    else do
      let rate ← pyGet format_info "rate" .null
      pure (extract_rate_from_value rate)
  else sample_rate_enum_fallback params

/-- Model of `PipeWireMonitor._get_node_descriptive_name`. The Python `or`
chain takes the first truthy value. -/
def get_node_descriptive_name (node : JVal) : Except PyErr JVal := do
  let info ← pyGet node "info" (.obj [])
  let props ← pyGet info "props" (.obj [])
  let d ← pyGet props "node.description" .null
  if truthy d then pure d
  else do
    let a ← pyGet props "application.name" .null
    if truthy a then pure a
    else do
      let n ← pyGet props "node.name" .null
      if truthy n then pure n
      else pure (.str "Unknown Source")

/-- Loop of `_is_volume_at_100` over the entries of `params["Props"]`. The
first entry whose `volume` or `channelVolumes` is off unity short-circuits. -/
def volEntryLoop : List JVal → Except PyErr Bool
  | [] => .ok true
  | ps :: rest => do
    let hasVol ← pyIn (.str "volume") ps
    let volFail ←
      if hasVol then do
        let v ← pySubscript ps (.str "volume")
        pure (!pyEq v (.float 1))
      else pure false
    if volFail then .ok false
    else do
      let hasCh ← pyIn (.str "channelVolumes") ps
      let chFail ←
        if hasCh then do
          let cv ← pySubscript ps (.str "channelVolumes")
          let vols ← pyIter cv
          pure (!vols.all fun v => pyEq v (.float 1))
        else pure false
      if chFail then .ok false else volEntryLoop rest

/-- Model of `PipeWireMonitor._is_volume_at_100`. The descriptive name and the
node id are computed for logging before the loop runs, so their failures are
part of the behaviour. -/
def is_volume_at_100 (node : JVal) : Except PyErr Bool := do
  let info ← pyGet node "info" (.obj [])
  let params ← pyGet info "params" (.obj [])
  let hasProps ← pyIn (.str "Props") params
  let propsTruthy ←
    if hasProps then do
      let p ← pySubscript params (.str "Props")
      pure (truthy p)
    else pure false
  if !hasProps || !propsTruthy then .ok true
  else do
    let _node_name ← get_node_descriptive_name node
    let _node_id ← pyGet node "id" .null
    let props ← pySubscript params (.str "Props")
    let entries ← pyIter props
    volEntryLoop entries

/-- Model of `PipeWireMonitor._filter_sources`. The per-node `props` lookup
and the descriptive name are computed for logging and can raise; the filter
keeps nodes whose `info["state"] == "running"`. -/
def filter_sources : List JVal → Except PyErr (List JVal)
  | [] => .ok []
  | node :: rest => do
    let info ← pyGet node "info" (.obj [])
    let _props ← pyGet info "props" (.obj [])
    let state ← pyGet info "state" .null
    let _log_name ← get_node_descriptive_name node
    let tail ← filter_sources rest
    if pyEq state (.str "running") then pure (node :: tail) else pure tail

/-- Python `set.add`: the element must be hashable; duplicates (by `==`) are
not re-added. The model keeps insertion order; the program only uses the
set's cardinality and its sole element, which do not depend on order. -/
def setAdd (s : List JVal) (v : JVal) : Except PyErr (List JVal) :=
  if hashable v then
    if s.any fun x => pyEq x v then .ok s else .ok (s ++ [v])
  else .error .typeError

/-- Loop of `_get_connected_source_nodes` that collects `output-node-id`s of
links whose `input-node-id` equals the target id. -/
def collectSourceIds (target_node_id : JVal) : List JVal → List JVal → Except PyErr (List JVal)
  | [], acc => .ok acc
  | link :: rest, acc => do
    let info ← pyGet link "info" (.obj [])
    let inp ← pyGet info "input-node-id" .null
    if pyEq inp target_node_id then do
      let outp ← pyGet info "output-node-id" .null
      let acc2 ← setAdd acc outp
      collectSourceIds target_node_id rest acc2
    else collectSourceIds target_node_id rest acc

/-- Model of `PipeWireMonitor._get_connected_source_nodes`: ids with no
matching node in the index are silently dropped. -/
def get_connected_source_nodes (graph : PipeWireGraph) (target_node_id : JVal) :
    Except PyErr (List JVal) := do
  let ids ← collectSourceIds target_node_id (graph.links.map Prod.snd) []
  pure (ids.filterMap fun nid => dictFind graph.nodes nid)

/-- Terminal outcomes of `run`, one per status text it returns:
`error` is "Err", `deviceNotFound` is "N/A", `volumeMismatch` is "Vol Err",
`idle` is "Idle", `ambiguousSources` is "Src Err", `rateMismatch` is
"Freq Err", and `consistent rate` is the rate text itself. The markup and
tooltip of `_format_output` carry no decision content and are not modelled. -/
inductive Outcome where
  | error
  | deviceNotFound
  | volumeMismatch
  | idle
  | ambiguousSources
  | rateMismatch
  | consistent (rate : JVal)
deriving Repr

/-- Steps 4-6 of `run`: the scenario split on the filtered source list, then
the volume and rate checks on the sole relevant source. -/
def run_post_filter (device_freq : JVal) : List JVal → Except PyErr Outcome
  | [] => .ok .idle
  | _ :: _ :: _ => .ok .ambiguousSources
  | [source] => do
    let volOk ← is_volume_at_100 source
    if !volOk then .ok .volumeMismatch
    else do
      let source_freq ← get_node_sample_rate source
      let _source_name ← get_node_descriptive_name source
      let _sid ← pyGet source "id" .null
      if truthy source_freq && !pyEq device_freq source_freq then .ok .rateMismatch
      else .ok (.consistent device_freq)

/-- Steps 2-6 of `run`, once the target node has been found: rate resolution,
target volume check, topology, filtering, and the final classification. -/
def run_with_target (graph : PipeWireGraph) (target_node : JVal) : Except PyErr Outcome := do
  let device_freq ← get_node_sample_rate target_node
  if !truthy device_freq then .ok .error
  else do
    let volOk ← is_volume_at_100 target_node
    if !volOk then .ok .volumeMismatch
    else do
      let tid ← pySubscript target_node (.str "id")
      let sources ← get_connected_source_nodes graph tid
      let relevant ← filter_sources sources
      run_post_filter device_freq relevant

/-- Model of `PipeWireMonitor.run`. The input is the result of
`_get_pipewire_graph`: `none` models the `None` returned when the external
dump could not be obtained or parsed, `some v` the parsed JSON value. -/
def run (raw_graph : Option JVal) (target : String) : Except PyErr Outcome :=
  match raw_graph with
  | none => .ok .error
  | some g =>
    if !truthy g then .ok .error
    else do
      let items ← pyIter g
      let graph ← PipeWireGraph.build items
      let target_node ← find_node_by_name graph target
      if !truthy target_node then .ok .deviceNotFound
      else run_with_target graph target_node

example : pyEq (.int 1) (.float 1) = true := rfl
example : strContains "PipeWire:Interface:Node" "Node" = true := rfl
example : strContains "abc" "" = true := rfl
example : strContains "ab" "abc" = false := rfl
example : pySubscript (.arr [.int 5, .int 6]) (.int 0) = .ok (.int 5) := rfl
example : pySubscript (.arr [.int 5, .int 6]) (.int (-1)) = .ok (.int 6) := rfl
example : pyIn (.str "Format") (.obj [("Format", .null)]) = .ok true := rfl
example : pyGet (.int 5) "x" .null = .error .attributeError := rfl


/-- Name resolution as claim C9 words it: the first PRESENT of the three
property fields, the placeholder when all three are absent. Kept for
comparison with the code, which skips falsy (for example empty) values. -/
def nameFirstPresent (node : JVal) : JVal :=
  let props := getD (getD node "info" (.obj [])) "props" (.obj [])
  match jLookup props "node.description" with
  | some v => v
  | none =>
    match jLookup props "application.name" with
    | some v => v
    | none =>
      match jLookup props "node.name" with
      | some v => v
      | none => .str "Unknown Source"

/-- Amended name resolution: the first present AND truthy of the three
property fields (a present but empty or otherwise falsy value is skipped),
the placeholder when none is truthy. -/
def nameFirstTruthy (node : JVal) : JVal :=
  let props := getD (getD node "info" (.obj [])) "props" (.obj [])
  let d := getD props "node.description" .null
  if truthy d then d
  else
    let a := getD props "application.name" .null
    if truthy a then a
    else
      let n := getD props "node.name" .null
      if truthy n then n else .str "Unknown Source"

/-- Rate decoding as claim C4 words it: a range/default object resolves to its
`default` field (unknown when that field is absent), a direct integer to
itself, anything else to unknown. -/
def specRateValue (value : JVal) : JVal :=
  match value with
  | .obj _ => getD value "default" .null
  | _ => if pyIsInt value then value else .null

/-- Rate of the first active-format entry as claim C4 words it: the rate
nested under the `audio` sub-object when that sub-object is present,
otherwise the top-level `rate` field. -/
def specFormatRate (e : JVal) : JVal :=
  match jLookup e "audio" with
  | some a => specRateValue (getD a "rate" .null)
  | none => specRateValue (getD e "rate" .null)

/-- Rate of the first enumerated-formats entry: its `rate` field. -/
def specEnumRate (e : JVal) : JVal :=
  specRateValue (getD e "rate" .null)

/-- First entry of a parameter group (junk on non-lists; only applied to
groups that are known to be non-empty lists). -/
def firstEntry : JVal → JVal
  | .arr (e :: _) => e
  | _ => .null

/-- Fallback of the spec-side sample-rate resolution: the first entry of the
present-and-non-empty enumerated-formats (`EnumFormat`) group, unknown
otherwise. -/
def specEnumFallback (params : JVal) : JVal :=
  let enum := getD params "EnumFormat" .null
  if truthy enum then specEnumRate (firstEntry enum) else .null

/-- Sample-rate resolution as claim C4 words it, continued: the first entry of
the present-and-non-empty active-format (`Format`) group wins and the
enumerated-formats group is consulted only when the active-format group is
absent or empty; unknown when no group yields a usable value. -/
def specSampleRate (node : JVal) : JVal :=
  let params := getD (getD node "info" (.obj [])) "params" (.obj [])
  let fmt := getD params "Format" .null
  if truthy fmt then specFormatRate (firstEntry fmt)
  else specEnumFallback params

/-- One properties entry is at unity as claim C5 words it: its master
`volume` field, if present, equals 1.0, and every entry of its
`channelVolumes` list, if present, equals 1.0. -/
def volEntryAtUnity (e : JVal) : Bool :=
  (match jLookup e "volume" with
   | some v => pyEq v (.float 1)
   | none => true) &&
  (match jLookup e "channelVolumes" with
   | some (.arr vs) => vs.all fun v => pyEq v (.float 1)
   | _ => true)

/-- Volume-at-unity as claim C5 words it: vacuously true when the `Props`
group is absent or empty, otherwise true exactly when every entry is at
unity. -/
def specVolumeAtUnity (node : JVal) : Bool :=
  let params := getD (getD node "info" (.obj [])) "params" (.obj [])
  let props := getD params "Props" .null
  if truthy props then
    match props with
    | .arr entries => entries.all volEntryAtUnity
    | _ => true
  else true

/-- Shape conformance of a parameter group per the data model: absent, falsy,
or a list whose first entry is an object whose `audio` sub-object, if
present, is an object. -/
def wfGroup : Option JVal → Bool
  | none => true
  | some (.arr []) => true
  | some (.arr (e :: _)) =>
    isObj e &&
      (match jLookup e "audio" with
       | some a => isObj a
       | none => true)
  | some g => !truthy g

/-- Shape conformance of one `Props` entry: an object whose `channelVolumes`
field, if present, is a list. -/
def wfVolEntry (e : JVal) : Bool :=
  isObj e &&
    (match jLookup e "channelVolumes" with
     | some c => isArr c
     | none => true)

/-- Shape conformance of the `Props` group: absent, falsy, or a list of
conformant entries. -/
def wfProps : Option JVal → Bool
  | none => true
  | some (.arr entries) => entries.all wfVolEntry
  | some g => !truthy g

/-- The node and its `info`, `props` and `params` records are objects (the
defaults for absent fields count as empty objects). -/
def nodeShapeOk (node : JVal) : Bool :=
  isObj node &&
  isObj (getD node "info" (.obj [])) &&
  isObj (getD (getD node "info" (.obj [])) "props" (.obj [])) &&
  isObj (getD (getD node "info" (.obj [])) "params" (.obj []))

/-- Full shape conformance of a node with the documented data model: nested
records are objects and the three parameter groups the program reads are
well-shaped. -/
def WFNode (node : JVal) : Bool :=
  nodeShapeOk node &&
  (let params := getD (getD node "info" (.obj [])) "params" (.obj [])
   wfGroup (jLookup params "Format") &&
   wfGroup (jLookup params "EnumFormat") &&
   wfProps (jLookup params "Props"))

theorem bindE_ok {α β : Type} (a : α) (f : α → Except PyErr β) :
    (Except.ok a >>= f) = f a := rfl

theorem bindE_err {α β : Type} (e : PyErr) (f : α → Except PyErr β) :
    ((Except.error e : Except PyErr α) >>= f) = .error e := rfl

theorem pureE {α : Type} (a : α) : (pure a : Except PyErr α) = .ok a := rfl

theorem isObj_iff {v : JVal} : isObj v = true ↔ ∃ fs, v = .obj fs := by
  cases v <;> simp [isObj]

theorem pyGet_obj {v : JVal} (h : isObj v = true) (k : String) (d : JVal) :
    pyGet v k d = .ok (getD v k d) := by
  obtain ⟨fs, rfl⟩ := isObj_iff.mp h
  rfl

theorem pyEq_str_str (a b : String) : pyEq (.str a) (.str b) = (a == b) := rfl

theorem objLookup_isSome_any (fs : List (String × JVal)) (k : String) :
    (fs.any fun kv => pyEq (.str kv.1) (.str k)) = (objLookup fs k).isSome := by
  induction fs with
  | nil => rfl
  | cons kv rest ih =>
    obtain ⟨k2, v⟩ := kv
    simp only [List.any_cons, pyEq_str_str, objLookup] at *
    by_cases hk : (k2 == k) = true
    · simp [hk]
    · simp [hk, ih]

theorem pyIn_obj {v : JVal} (h : isObj v = true) (k : String) :
    pyIn (.str k) v = .ok (jLookup v k).isSome := by
  obtain ⟨fs, rfl⟩ := isObj_iff.mp h
  simp [pyIn, hashable, jLookup, objLookup_isSome_any]

theorem pySubscript_objKey {v : JVal} {k : String} {w : JVal}
    (h : jLookup v k = some w) : pySubscript v (.str k) = .ok w := by
  cases v <;> simp [jLookup] at h
  simp [pySubscript, h]

theorem getD_of_lookup {v : JVal} {k : String} {w : JVal}
    (h : jLookup v k = some w) (d : JVal) : getD v k d = w := by
  simp [getD, h]

theorem getD_of_lookup_none {v : JVal} {k : String}
    (h : jLookup v k = none) (d : JVal) : getD v k d = d := by
  simp [getD, h]

theorem pySubscript_arr_head (e : JVal) (rest : List JVal) :
    pySubscript (.arr (e :: rest)) (.int 0) = .ok e := by
  simp [pySubscript]

example : nodeShapeOk (.obj []) = true := rfl
example : WFNode (.obj []) = true := rfl


theorem nodeShapeOk_parts {node : JVal} (h : nodeShapeOk node = true) :
    isObj node = true ∧
    isObj (getD node "info" (.obj [])) = true ∧
    isObj (getD (getD node "info" (.obj [])) "props" (.obj [])) = true ∧
    isObj (getD (getD node "info" (.obj [])) "params" (.obj [])) = true := by
  simp only [nodeShapeOk, Bool.and_eq_true] at h
  tauto

/-- On a shape-conformant node the descriptive-name extraction returns
normally, with the first truthy value of the three fields. -/
theorem name_eval (node : JVal) (h : nodeShapeOk node = true) :
    get_node_descriptive_name node = .ok (nameFirstTruthy node) := by
  obtain ⟨h1, h2, h3, _⟩ := nodeShapeOk_parts h
  simp only [get_node_descriptive_name, nameFirstTruthy, pyGet_obj h1, pyGet_obj h2,
    pyGet_obj h3, bindE_ok, pureE]
  split_ifs <;> rfl


theorem extract_eq_specRateValue (v : JVal) : extract_rate_from_value v = specRateValue v := rfl

theorem WFNode_parts {node : JVal} (h : WFNode node = true) :
    nodeShapeOk node = true ∧
    wfGroup (jLookup (getD (getD node "info" (.obj [])) "params" (.obj [])) "Format") = true ∧
    wfGroup (jLookup (getD (getD node "info" (.obj [])) "params" (.obj [])) "EnumFormat") = true ∧
    wfProps (jLookup (getD (getD node "info" (.obj [])) "params" (.obj [])) "Props") = true := by
  simp only [WFNode, Bool.and_eq_true] at h
  tauto

theorem wfGroup_truthy_arr {g : JVal} (hw : wfGroup (some g) = true)
    (ht : truthy g = true) : ∃ e rest, g = .arr (e :: rest) := by
  cases g with
  | arr items =>
    cases items with
    | nil => simp [truthy] at ht
    | cons e rest => exact ⟨e, rest, rfl⟩
  | null => simp [truthy] at ht
  | bool b => simp [wfGroup, ht] at hw
  | int n => simp [wfGroup, ht] at hw
  | float q => simp [wfGroup, ht] at hw
  | str s => simp [wfGroup, ht] at hw
  | obj fs => simp [wfGroup, ht] at hw

theorem wfGroup_first_obj {e : JVal} {rest : List JVal}
    (hw : wfGroup (some (.arr (e :: rest))) = true) :
    isObj e = true ∧ ∀ a, jLookup e "audio" = some a → isObj a = true := by
  simp only [wfGroup, Bool.and_eq_true] at hw
  obtain ⟨he, ha⟩ := hw
  refine ⟨he, fun a haud => ?_⟩
  rw [haud] at ha
  exact ha

/-- On an object whose `EnumFormat` group is well-shaped, the fallback block
returns normally with the spec-side fallback value. -/
theorem enum_fallback_eval (params : JVal) (h4 : isObj params = true)
    (hE : wfGroup (jLookup params "EnumFormat") = true) :
    sample_rate_enum_fallback params = .ok (specEnumFallback params) := by
  simp only [sample_rate_enum_fallback, specEnumFallback, pyIn_obj h4, bindE_ok, pureE]
  cases hEn : jLookup params "EnumFormat" with
  | none => simp [getD_of_lookup_none hEn, truthy]
  | some g =>
    rw [hEn] at hE
    simp only [Option.isSome_some, if_true, pySubscript_objKey hEn, bindE_ok, pureE,
      getD_of_lookup hEn]
    cases htg : truthy g with
    | false => simp [htg]
    | true =>
      obtain ⟨e, rest, rfl⟩ := wfGroup_truthy_arr hE htg
      obtain ⟨he, -⟩ := wfGroup_first_obj hE
      simp [htg, pySubscript_arr_head, pyGet_obj he, firstEntry, specEnumRate,
        extract_eq_specRateValue, bindE_ok, pureE, pySubscript_objKey hEn]

/-- On a shape-conformant node the sample-rate extraction returns normally,
with the spec-side resolution result. -/
theorem sample_rate_eval (node : JVal) (h : WFNode node = true) :
    get_node_sample_rate node = .ok (specSampleRate node) := by
  obtain ⟨hshape, hF, hE, hP⟩ := WFNode_parts h
  obtain ⟨h1, h2, h3, h4⟩ := nodeShapeOk_parts hshape
  simp only [get_node_sample_rate, specSampleRate, pyGet_obj h1, pyGet_obj h2,
    pyIn_obj h4, bindE_ok, pureE]
  cases hFmt : jLookup (getD (getD node "info" (.obj [])) "params" (.obj [])) "Format" with
  | none =>
    simp only [Option.isSome_none, Bool.false_and, if_false, getD_of_lookup_none hFmt,
      truthy, bindE_ok, pureE, Bool.false_eq_true]
    exact enum_fallback_eval _ h4 hE
  | some g =>
    rw [hFmt] at hF
    simp only [Option.isSome_some, if_true, pySubscript_objKey hFmt, bindE_ok, pureE,
      getD_of_lookup hFmt, Bool.true_and]
    cases htg : truthy g with
    | false =>
      simp only [htg, if_false, Bool.false_eq_true]
      exact enum_fallback_eval _ h4 hE
    | true =>
      obtain ⟨e, rest, rfl⟩ := wfGroup_truthy_arr hF htg
      obtain ⟨he, haud⟩ := wfGroup_first_obj hF
      simp only [htg, if_true, pySubscript_objKey hFmt, pySubscript_arr_head, bindE_ok,
        pureE, pyIn_obj he, firstEntry, specFormatRate]
      cases haudio : jLookup e "audio" with
      | some a =>
        have ha : isObj a = true := haud a haudio
        simp [haudio, pyGet_obj he, getD_of_lookup haudio, pyGet_obj ha,
          extract_eq_specRateValue, bindE_ok, pureE]
      | none =>
        simp [haudio, pyGet_obj he, extract_eq_specRateValue, bindE_ok, pureE]


theorem wfProps_truthy_arr {g : JVal} (hw : wfProps (some g) = true)
    (ht : truthy g = true) : ∃ entries, g = .arr entries := by
  cases g with
  | arr entries => exact ⟨entries, rfl⟩
  | null => simp [truthy] at ht
  | bool b => simp [wfProps, ht] at hw
  | int n => simp [wfProps, ht] at hw
  | float q => simp [wfProps, ht] at hw
  | str s => simp [wfProps, ht] at hw
  | obj fs => simp [wfProps, ht] at hw

/-- On a list of shape-conformant `Props` entries the check loop returns
normally, with the spec-side all-entries-at-unity verdict. -/
theorem volEntryLoop_eval (entries : List JVal)
    (h : entries.all wfVolEntry = true) :
    volEntryLoop entries = .ok (entries.all volEntryAtUnity) := by
  induction entries with
  | nil => rfl
  | cons e rest ih =>
    simp only [List.all_cons, Bool.and_eq_true] at h
    obtain ⟨he, hrest⟩ := h
    simp only [wfVolEntry, Bool.and_eq_true] at he
    obtain ⟨heo, hch⟩ := he
    simp only [volEntryLoop, pyIn_obj heo, bindE_ok, pureE, List.all_cons]
    cases hv : jLookup e "volume" with
    | some v =>
      simp only [Option.isSome_some, if_true, pySubscript_objKey hv, bindE_ok, pureE]
      cases hveq : pyEq v (.float 1) with
      | false =>
        simp [hveq, volEntryAtUnity, hv]
      | true =>
        simp only [hveq, Bool.not_true, if_false, Bool.false_eq_true]
        cases hc : jLookup e "channelVolumes" with
        | some c =>
          rw [hc] at hch
          obtain ⟨vs, rfl⟩ : ∃ vs, c = .arr vs := by
            cases c <;> simp [isArr] at hch ⊢
          simp only [Option.isSome_some, if_true, pySubscript_objKey hc, bindE_ok, pureE,
            pyIter, bindE_ok]
          cases hall : vs.all (fun v => pyEq v (.float 1)) with
          | false => simp [hall, volEntryAtUnity, hv, hveq, hc]
          | true => simp [hall, volEntryAtUnity, hv, hveq, hc, ih hrest]
        | none =>
          simp [hc, volEntryAtUnity, hv, hveq, ih hrest]
    | none =>
      simp only [Option.isSome_none, if_false, bindE_ok, pureE, Bool.not_false,
        Bool.false_eq_true]
      cases hc : jLookup e "channelVolumes" with
      | some c =>
        rw [hc] at hch
        obtain ⟨vs, rfl⟩ : ∃ vs, c = .arr vs := by
          cases c <;> simp [isArr] at hch ⊢
        simp only [Option.isSome_some, if_true, pySubscript_objKey hc, bindE_ok, pureE,
          pyIter, bindE_ok]
        cases hall : vs.all (fun v => pyEq v (.float 1)) with
        | false => simp [hall, volEntryAtUnity, hv, hc]
        | true => simp [hall, volEntryAtUnity, hv, hc, ih hrest]
      | none =>
        simp [hc, volEntryAtUnity, hv, ih hrest]

/-- On a shape-conformant node the volume check returns normally, with the
spec-side at-unity verdict. -/
theorem volume_eval (node : JVal) (h : WFNode node = true) :
    is_volume_at_100 node = .ok (specVolumeAtUnity node) := by
  obtain ⟨hshape, hF, hE, hP⟩ := WFNode_parts h
  obtain ⟨h1, h2, h3, h4⟩ := nodeShapeOk_parts hshape
  simp only [is_volume_at_100, specVolumeAtUnity, pyGet_obj h1, pyGet_obj h2,
    pyIn_obj h4, bindE_ok, pureE]
  cases hPr : jLookup (getD (getD node "info" (.obj [])) "params" (.obj [])) "Props" with
  | none =>
    simp [getD_of_lookup_none hPr, truthy]
  | some g =>
    rw [hPr] at hP
    simp only [Option.isSome_some, if_true, pySubscript_objKey hPr, bindE_ok, pureE,
      getD_of_lookup hPr]
    cases htg : truthy g with
    | false => simp [htg]
    | true =>
      obtain ⟨entries, rfl⟩ := wfProps_truthy_arr hP htg
      have hall : entries.all wfVolEntry = true := by simpa [wfProps] using hP
      simp [htg, name_eval node hshape, pyGet_obj h1, pySubscript_objKey hPr, pyIter,
        bindE_ok, pureE, volEntryLoop_eval entries hall]


/-- Whether an element passes the index filter `tag in item.get("type", "")`
without raising; mirrors the comprehension condition of
`PipeWireGraph.__init__`. -/
def typeMatches (tag : String) (item : JVal) : Bool :=
  match pyGet item "type" (.str "") with
  | .ok t =>
    match pyIn (.str tag) t with
    | .ok b => b
    | .error _ => false
  | .error _ => false

theorem dictInsert_values {d d2 : List (JVal × JVal)} {k v : JVal}
    (h : dictInsert d k v = .ok d2) (p : JVal × JVal) (hp : p ∈ d2) :
    p.2 ∈ d.map Prod.snd ∨ p.2 = v := by
  unfold dictInsert at h
  by_cases hh : hashable k = true
  · rw [if_pos hh] at h
    by_cases hany : (d.any fun q => pyEq q.1 k) = true
    · rw [if_pos hany] at h
      injection h with h
      subst h
      simp only [List.mem_map] at hp
      obtain ⟨q, hq, hpq⟩ := hp
      by_cases hqk : pyEq q.1 k = true
      · right
        rw [← hpq]
        simp [hqk]
      · left
        rw [← hpq]
        simp only [hqk, Bool.false_eq_true, if_false]
        exact List.mem_map_of_mem _ hq
    · rw [if_neg hany] at h
      injection h with h
      subst h
      rcases List.mem_append.mp hp with h1 | h1
      · exact Or.inl (List.mem_map_of_mem _ h1)
      · right
        simp only [List.mem_singleton] at h1
        rw [h1]
  · rw [if_neg hh] at h
    exact absurd h (by simp)

/-- Every entry of a successfully built index is either carried over from the
accumulator or an element of the input that passed the tag filter. -/
theorem buildIndex_values (tag : String) :
    ∀ (items : List JVal) (acc idx : List (JVal × JVal)),
      buildIndex tag items acc = .ok idx →
      ∀ p ∈ idx, p.2 ∈ acc.map Prod.snd ∨ (p.2 ∈ items ∧ typeMatches tag p.2 = true)
  | [], acc, idx, h, p, hp => by
    unfold buildIndex at h
    injection h with h
    subst h
    exact Or.inl (List.mem_map_of_mem _ hp)
  | item :: rest, acc, idx, h, p, hp => by
    unfold buildIndex at h
    cases hg : pyGet item "type" (.str "") with
    | error e => rw [hg, bindE_err] at h; exact absurd h (by simp)
    | ok t =>
      rw [hg, bindE_ok] at h
      cases hb : pyIn (.str tag) t with
      | error e => rw [hb, bindE_err] at h; exact absurd h (by simp)
      | ok b =>
        rw [hb, bindE_ok] at h
        cases b with
        | false =>
          simp only [Bool.false_eq_true, if_false] at h
          rcases buildIndex_values tag rest acc idx h p hp with h1 | ⟨h1, h2⟩
          · exact Or.inl h1
          · exact Or.inr ⟨List.mem_cons_of_mem _ h1, h2⟩
        | true =>
          simp only [if_true] at h
          cases hi : pySubscript item (.str "id") with
          | error e => rw [hi, bindE_err] at h; exact absurd h (by simp)
          | ok i =>
            rw [hi, bindE_ok] at h
            cases hd : dictInsert acc i item with
            | error e => rw [hd, bindE_err] at h; exact absurd h (by simp)
            | ok acc2 =>
              rw [hd, bindE_ok] at h
              rcases buildIndex_values tag rest acc2 idx h p hp with h1 | h1
              · simp only [List.mem_map] at h1
                obtain ⟨q, hq, hq2⟩ := h1
                rcases dictInsert_values hd q hq with h2 | h2
                · exact Or.inl (hq2 ▸ h2)
                · refine Or.inr ⟨?_, ?_⟩
                  · rw [← hq2, h2]
                    exact List.mem_cons_self _ _
                  · rw [← hq2, h2]
                    simp [typeMatches, hg, hb]
              · exact Or.inr ⟨List.mem_cons_of_mem _ h1.1, h1.2⟩


/-- Shape conformance of one snapshot element with the documented data model:
an object whose type discriminator, when present, is a string, and which
carries a hashable `id` whenever its type matches one of the two index tags. -/
def WFElem (item : JVal) : Bool :=
  isObj item &&
  (match jLookup item "type" with
   | none => true
   | some (.str _) => true
   | some _ => false) &&
  ((!typeMatches "Node" item && !typeMatches "Link" item) ||
   (match jLookup item "id" with
    | some i => hashable i
    | none => false))

theorem WFElem_parts {item : JVal} (h : WFElem item = true) :
    isObj item = true ∧
    (match jLookup item "type" with
     | none => true
     | some (.str _) => true
     | some _ => false) = true ∧
    ((!typeMatches "Node" item && !typeMatches "Link" item) ||
     (match jLookup item "id" with
      | some i => hashable i
      | none => false)) = true := by
  simp only [WFElem, Bool.and_eq_true] at h
  tauto

/-- On data-model-conformant elements the index comprehension never raises. -/
theorem buildIndex_total (tag : String) (htag : tag = "Node" ∨ tag = "Link") :
    ∀ (items : List JVal) (acc : List (JVal × JVal)),
      (∀ item ∈ items, WFElem item = true) →
      ∃ idx, buildIndex tag items acc = .ok idx
  | [], acc, _ => ⟨acc, rfl⟩
  | item :: rest, acc, h => by
    obtain ⟨ho, hty, hid⟩ := WFElem_parts (h item (List.mem_cons_self _ _))
    have hrest : ∀ it ∈ rest, WFElem it = true :=
      fun it hit => h it (List.mem_cons_of_mem _ hit)
    obtain ⟨s, hs⟩ : ∃ s, getD item "type" (.str "") = .str s := by
      cases hl : jLookup item "type" with
      | none => exact ⟨"", by simp [getD, hl]⟩
      | some t =>
        rw [hl] at hty
        cases t with
        | str s => exact ⟨s, by simp [getD, hl]⟩
        | null => simp at hty
        | bool b => simp at hty
        | int n => simp at hty
        | float q => simp at hty
        | arr xs => simp at hty
        | obj fs => simp at hty
    unfold buildIndex
    rw [pyGet_obj ho, bindE_ok, hs]
    have hin : pyIn (.str tag) (.str s) = .ok (strContains s tag) := rfl
    rw [hin, bindE_ok]
    cases hc : strContains s tag with
    | false =>
      simp only [Bool.false_eq_true, if_false]
      exact buildIndex_total tag htag rest acc hrest
    | true =>
      simp only [if_true]
      have hmatch : typeMatches tag item = true := by
        simp [typeMatches, pyGet_obj ho, hs, hin, hc]
      obtain ⟨i, hi, hhash⟩ : ∃ i, jLookup item "id" = some i ∧ hashable i = true := by
        rcases (Bool.or_eq_true _ _).mp hid with hnot | hsome
        · exfalso
          rcases htag with rfl | rfl <;>
            simp only [Bool.and_eq_true, Bool.not_eq_true'] at hnot <;>
            rcases hnot with ⟨ha, hb⟩ <;> simp_all
        · cases hl : jLookup item "id" with
          | none => rw [hl] at hsome; exact absurd hsome (by simp)
          | some i => rw [hl] at hsome; exact ⟨i, rfl, hsome⟩
      rw [pySubscript_objKey hi, bindE_ok]
      have hins : ∃ acc2, dictInsert acc i item = .ok acc2 := by
        unfold dictInsert
        rw [if_pos hhash]
        by_cases hany : (acc.any fun q => pyEq q.1 i) = true
        · exact ⟨_, by rw [if_pos hany]⟩
        · exact ⟨_, by rw [if_neg hany]⟩
      obtain ⟨acc2, hacc2⟩ := hins
      rw [hacc2, bindE_ok]
      exact buildIndex_total tag htag rest acc2 hrest

/-- On data-model-conformant elements the whole graph construction never
raises. -/
theorem build_total (items : List JVal) (h : ∀ item ∈ items, WFElem item = true) :
    ∃ g, PipeWireGraph.build items = .ok g := by
  obtain ⟨ns, hns⟩ := buildIndex_total "Node" (Or.inl rfl) items [] h
  obtain ⟨ls, hls⟩ := buildIndex_total "Link" (Or.inr rfl) items [] h
  exact ⟨⟨ns, ls⟩, by simp [PipeWireGraph.build, hns, hls, bindE_ok, pureE]⟩


/-- Boolean success marker for a modelled computation. -/
def isOkE {A : Type} : Except PyErr A → Bool
  | .ok _ => true
  | .error _ => false

/-- Shape conformance of a node for the name-matching loop: nested records are
objects and the raw `node.name`, when present, is a string. -/
def wfFindNode (node : JVal) : Bool :=
  nodeShapeOk node &&
  (match jLookup (getD (getD node "info" (.obj [])) "props" (.obj [])) "node.name" with
   | some (.str _) => true
   | none => true
   | some _ => false)

/-- The raw internal `node.name` of a node, the empty string when absent. -/
def nodeNameOf (node : JVal) : String :=
  match jLookup (getD (getD node "info" (.obj [])) "props" (.obj [])) "node.name" with
  | some (.str s) => s
  | _ => ""

/-- When no node in the list has a raw name containing the target substring,
the search loop returns normally with `None`. -/
theorem findLoop_none (target : String) :
    ∀ nodes : List JVal,
      (∀ n ∈ nodes,
        wfFindNode n = true ∧ strContains (nodeNameOf n) target = false) →
      findLoop target nodes = .ok .null
  | [], _ => rfl
  | node :: rest, h => by
    obtain ⟨hwf, hnc⟩ := h node (List.mem_cons_self _ _)
    simp only [wfFindNode, Bool.and_eq_true] at hwf
    obtain ⟨hshape, hname⟩ := hwf
    obtain ⟨h1, h2, h3, _⟩ := nodeShapeOk_parts hshape
    obtain ⟨s, hs, hsn⟩ :
        ∃ s, getD (getD (getD node "info" (.obj [])) "props" (.obj [])) "node.name" (.str "") =
          .str s ∧ nodeNameOf node = s := by
      cases hl : jLookup (getD (getD node "info" (.obj [])) "props" (.obj [])) "node.name" with
      | none => exact ⟨"", getD_of_lookup_none hl _, by simp [nodeNameOf, hl]⟩
      | some t =>
        rw [hl] at hname
        cases t with
        | str s => exact ⟨s, getD_of_lookup hl _, by simp [nodeNameOf, hl]⟩
        | null => simp at hname
        | bool b => simp at hname
        | int n => simp at hname
        | float q => simp at hname
        | arr xs => simp at hname
        | obj fs => simp at hname
    rw [hsn] at hnc
    unfold findLoop
    rw [pyGet_obj h1, bindE_ok, pyGet_obj h2, bindE_ok, pyGet_obj h3, bindE_ok, hs]
    have hin : pyIn (.str target) (.str s) = .ok (strContains s target) := rfl
    rw [hin, bindE_ok, hnc]
    simp only [Bool.false_eq_true, if_false]
    exact findLoop_none target rest fun n hn => h n (List.mem_cons_of_mem _ hn)

/-- When the snapshot is a non-empty list, the graph view builds, and no node
in the node index has a raw name containing the target, the run classifies
the state as device-not-found. -/
theorem run_deviceNotFound (items : List JVal) (target : String) (g : PipeWireGraph)
    (hne : items ≠ [])
    (hbuild : PipeWireGraph.build items = .ok g)
    (hnodes : ∀ p ∈ g.nodes,
      wfFindNode p.2 = true ∧ strContains (nodeNameOf p.2) target = false) :
    run (some (.arr items)) target = .ok .deviceNotFound := by
  have htr : truthy (.arr items) = true := by
    cases items with
    | nil => exact absurd rfl hne
    | cons a rest => simp [truthy]
  have hfind : find_node_by_name g target = .ok .null := by
    unfold find_node_by_name
    refine findLoop_none target _ fun n hn => ?_
    simp only [List.mem_map] at hn
    obtain ⟨p, hp, rfl⟩ := hn
    exact hnodes p hp
  simp [run, htr, pyIter, hbuild, hfind, bindE_ok, pureE, truthy, hne]


/-- A fully populated, shape-conformant target node used by concrete
witnesses: id 10, raw name "alsa.Speaker", active-format rate 48000, all
volumes at unity, running. -/
def sampleTarget : JVal := .obj [("id", .int 10), ("type", .str "PipeWire:Interface:Node"),
  ("info", .obj [
    ("props", .obj [("node.name", .str "alsa.Speaker"), ("node.description", .str "Speakers")]),
    ("params", .obj [
      ("Format", .arr [.obj [("audio", .obj [("rate", .int 48000)])]]),
      ("Props", .arr [.obj [("volume", .float 1), ("channelVolumes", .arr [.float 1, .float 1])]])]),
    ("state", .str "running")])]

/-- A shape-conformant running source node: id 20, raw name "app.Firefox",
active-format rate 48000. -/
def sampleSource : JVal := .obj [("id", .int 20), ("type", .str "PipeWire:Interface:Node"),
  ("info", .obj [
    ("props", .obj [("node.name", .str "app.Firefox"), ("application.name", .str "Firefox")]),
    ("params", .obj [("Format", .arr [.obj [("audio", .obj [("rate", .int 48000)])]])]),
    ("state", .str "running")])]

/-- A link element feeding node 20 into node 10. -/
def sampleLink : JVal := .obj [("id", .int 30), ("type", .str "PipeWire:Interface:Link"),
  ("info", .obj [("input-node-id", .int 10), ("output-node-id", .int 20)])]

/-- A source node that is not running. -/
def idleSource : JVal := .obj [("id", .int 21), ("type", .str "PipeWire:Interface:Node"),
  ("info", .obj [
    ("props", .obj [("node.name", .str "app.Idle")]),
    ("params", .obj []),
    ("state", .str "suspended")])]

/-- A running source whose active-format rate is 44100 and whose volume data
is absent (hence at unity). -/
def mismatchSource : JVal := .obj [("id", .int 22), ("type", .str "PipeWire:Interface:Node"),
  ("info", .obj [
    ("props", .obj [("node.name", .str "app.Mismatch")]),
    ("params", .obj [("Format", .arr [.obj [("audio", .obj [("rate", .int 44100)])]])]),
    ("state", .str "running")])]

/-- A running source with no usable rate parameter at all. -/
def unknownRateSource : JVal := .obj [("id", .int 23), ("type", .str "PipeWire:Interface:Node"),
  ("info", .obj [
    ("props", .obj [("node.name", .str "app.Unknown")]),
    ("params", .obj []),
    ("state", .str "running")])]

/-- A node carrying both an active-format audio rate (48000) and a different
enumerated-formats rate (44100). -/
def rateNode : JVal := .obj [("info", .obj [("props", .obj []), ("params", .obj [
  ("Format", .arr [.obj [("audio", .obj [("rate", .int 48000)])]]),
  ("EnumFormat", .arr [.obj [("rate", .int 44100)]])])])]

/-- A node whose human description is present but empty while the raw name
is "raw". -/
def emptyDescNode : JVal :=
  .obj [("info", .obj [("props", .obj [("node.description", .str ""), ("node.name", .str "raw")])])]

/-- A node whose extracted sample rate is the integer 0. -/
def zeroRateNode : JVal := .obj [("id", .int 24), ("type", .str "PipeWire:Interface:Node"),
  ("info", .obj [
    ("props", .obj [("node.name", .str "app.Zero")]),
    ("params", .obj [("Format", .arr [.obj [("audio", .obj [("rate", .int 0)])]])]),
    ("state", .str "running")])]

/-- A node whose first Props entry has master volume 0.5 while the rest of
the Props list is malformed (a bare integer). -/
def badVolNode : JVal := .obj [("info", .obj [("props", .obj []), ("params", .obj [
  ("Props", .arr [.obj [("volume", .float (mkRat 1 2))], .int 7])])])]

/-- Claim C1 (counterexample): on the node value `{"info": 5}` — a node with a
malformed `info` field — all three attribute-resolution operations raise
`AttributeError` instead of degrading to their defaults, so resolution is not
total on arbitrarily shaped node data. -/
theorem C1_counterexample :
    get_node_descriptive_name (.obj [("info", .int 5)]) = .error .attributeError ∧
    get_node_sample_rate (.obj [("info", .int 5)]) = .error .attributeError ∧
    is_volume_at_100 (.obj [("info", .int 5)]) = .error .attributeError :=
  ⟨rfl, rfl, rfl⟩

/-- Claim C1 (amended): on every node that conforms to the documented data
model — nested `info`, `props` and `params` records are objects and the
parameter groups the program reads are well-shaped lists — the three
attribute-resolution operations terminate normally; absence or malformation
of leaf fields degrades to the defaults rather than raising. -/
theorem C1_resolvers_total (node : JVal) (h : WFNode node = true) :
    isOkE (get_node_descriptive_name node) = true ∧
    isOkE (get_node_sample_rate node) = true ∧
    isOkE (is_volume_at_100 node) = true := by
  obtain ⟨hshape, -, -, -⟩ := WFNode_parts h
  refine ⟨?_, ?_, ?_⟩
  · rw [name_eval node hshape]; rfl
  · rw [sample_rate_eval node h]; rfl
  · rw [volume_eval node h]; rfl

/-- Concrete instance of the amended claim C1 at a fully populated node. -/
theorem C1_witness :
    WFNode sampleTarget = true ∧
    (isOkE (get_node_descriptive_name sampleTarget) = true ∧
     isOkE (get_node_sample_rate sampleTarget) = true ∧
     isOkE (is_volume_at_100 sampleTarget) = true) :=
  ⟨rfl, C1_resolvers_total sampleTarget rfl⟩


/-- Claim C2 (counterexample): the empty snapshot is successfully acquired and
contains no node matching any target, yet the run classifies it as Error —
the code's falsiness test on the raw dump cannot distinguish an empty list
from an acquisition failure — rather than as DeviceNotFound. -/
theorem C2_counterexample :
    run (some (.arr [])) "Speaker" = .ok .error ∧
    Outcome.error ≠ Outcome.deviceNotFound :=
  ⟨rfl, fun h => Outcome.noConfusion h⟩

/-- Claim C2 (amended): for every successfully acquired NON-EMPTY snapshot
whose graph view builds and in which no indexed node's raw internal name
contains the target substring, the run ends with DeviceNotFound, independent
of graph size; an acquisition failure yields Error, and so does an empty
snapshot, which the code conflates with a failure. -/
theorem C2_not_found (items : List JVal) (target : String) (g : PipeWireGraph)
    (hne : items ≠ []) (hbuild : PipeWireGraph.build items = .ok g)
    (hnodes : ∀ p ∈ g.nodes,
      wfFindNode p.2 = true ∧ strContains (nodeNameOf p.2) target = false) :
    run (some (.arr items)) target = .ok .deviceNotFound ∧
    run none target = .ok .error :=
  ⟨run_deviceNotFound items target g hne hbuild hnodes, rfl⟩

/-- Concrete instance of the amended claim C2: a one-node snapshot whose node
does not match the target "Zzz". -/
theorem C2_witness :
    run (some (.arr [sampleSource])) "Zzz" = .ok .deviceNotFound ∧
    run none "Zzz" = .ok .error :=
  C2_not_found [sampleSource] "Zzz" ⟨[(.int 20, sampleSource)], []⟩ (by simp) rfl
    (by
      intro p hp
      simp only [List.mem_singleton] at hp
      subst hp
      exact ⟨rfl, rfl⟩)

/-- Claim C3 (counterexample): a snapshot whose single element is node-typed
but lacks the `id` field makes Graph Model construction raise KeyError, so
construction is not total on malformed records. -/
theorem C3_counterexample :
    PipeWireGraph.build [.obj [("type", .str "PipeWire:Interface:Node")]] =
      .error .keyError := rfl

/-- Claim C3 (amended): Graph Model construction terminates normally and
yields the two indices on every snapshot whose elements conform to the data
model — objects whose type discriminator, when present, is a string and
which carry a hashable identity when node- or link-tagged — including the
empty snapshot, which yields empty indices. -/
theorem C3_construction_total (items : List JVal)
    (h : ∀ item ∈ items, WFElem item = true) :
    isOkE (PipeWireGraph.build items) = true ∧
    PipeWireGraph.build [] = .ok ⟨[], []⟩ := by
  obtain ⟨g, hg⟩ := build_total items h
  exact ⟨by rw [hg]; rfl, rfl⟩

/-- Concrete instance of the amended claim C3 at a three-element snapshot. -/
theorem C3_witness :
    isOkE (PipeWireGraph.build [sampleTarget, sampleSource, sampleLink]) = true ∧
    PipeWireGraph.build [] = .ok ⟨[], []⟩ :=
  C3_construction_total [sampleTarget, sampleSource, sampleLink]
    (by
      intro it hit
      simp only [List.mem_cons, List.mem_singleton, List.not_mem_nil, or_false] at hit
      rcases hit with rfl | rfl | rfl <;> rfl)

/-- Claim C4: on every shape-conformant node the sample-rate extraction
returns exactly the spec-side resolution `specSampleRate`, which reads the
first entry of a present-and-non-empty active-format (`Format`) group — the
rate under its `audio` sub-object when that sub-object is present, otherwise
the top-level rate field — ignoring the enumerated-formats group, consults
the first entry of the `EnumFormat` group only when the active-format group
is absent or empty, decodes a range/default object through its `default`
field and a direct integer as itself, and is unknown (`None`) when no group
yields a usable value. -/
theorem C4_sample_rate_priority (node : JVal) (h : WFNode node = true) :
    get_node_sample_rate node = .ok (specSampleRate node) :=
  sample_rate_eval node h

/-- Concrete instance of claim C4 at a node carrying both an active-format
audio rate (48000) and a different enumerated-formats rate (44100): the
active format wins. -/
theorem C4_witness :
    WFNode rateNode = true ∧
    get_node_sample_rate rateNode = .ok (specSampleRate rateNode) ∧
    specSampleRate rateNode = .int 48000 :=
  ⟨rfl, C4_sample_rate_priority rateNode rfl, rfl⟩


/-- Claim C5: (1) on every shape-conformant node the volume check returns the
spec-side verdict — true when the `Props` group is absent or empty, and
otherwise false exactly when some entry carries a master volume or a
per-channel volume entry differing from 1.0 under exact (numeric) equality;
(2) the check short-circuits: when the first entry already fails on its
master volume, the result is false no matter what the remaining entries
look like, even when they are malformed. -/
theorem C5_volume_check :
    (∀ node, WFNode node = true →
      is_volume_at_100 node = .ok (specVolumeAtUnity node)) ∧
    (∀ node e rest v, nodeShapeOk node = true →
      jLookup (getD (getD node "info" (.obj [])) "params" (.obj [])) "Props" =
        some (.arr (e :: rest)) →
      jLookup e "volume" = some v →
      pyEq v (.float 1) = false →
      is_volume_at_100 node = .ok false) := by
  refine ⟨volume_eval, ?_⟩
  intro node e rest v hshape hPr hv hne
  obtain ⟨h1, h2, h3, h4⟩ := nodeShapeOk_parts hshape
  have heo : isObj e = true := by
    cases e <;> simp [jLookup, isObj] at hv ⊢
  have htr : truthy (.arr (e :: rest)) = true := by simp [truthy]
  simp only [is_volume_at_100, pyGet_obj h1, pyGet_obj h2, pyIn_obj h4, bindE_ok, pureE,
    hPr, Option.isSome_some, if_true, pySubscript_objKey hPr, htr, Bool.not_true,
    Bool.or_self, Bool.false_eq_true, if_false, name_eval node hshape, pyIter,
    volEntryLoop, pyIn_obj heo, hv, pySubscript_objKey hv]
  simp [hne]

/-- Concrete instances of claim C5: the spec verdict at a conformant node
with all volumes at unity, and the short-circuit at a node whose first
Props entry has volume 0.5 followed by a malformed entry. -/
theorem C5_witness :
    (WFNode sampleTarget = true ∧
      is_volume_at_100 sampleTarget = .ok (specVolumeAtUnity sampleTarget) ∧
      specVolumeAtUnity sampleTarget = true) ∧
    is_volume_at_100 badVolNode = .ok false :=
  ⟨⟨rfl, C5_volume_check.1 sampleTarget rfl, rfl⟩,
   C5_volume_check.2 badVolNode (.obj [("volume", .float (mkRat 1 2))]) [.int 7]
     (.float (mkRat 1 2)) rfl rfl rfl rfl⟩

/-- Claim C6: once the candidate sources have been filtered to the running
ones, an empty survivor list classifies as Idle and a survivor list with
more than one element as AmbiguousSources — in both cases for every target
rate and every content of the surviving sources, so no per-source volume or
rate check influences these outcomes; those checks run only in the
singleton case. -/
theorem C6_source_count_split (sources relevant : List JVal) (device_freq : JVal)
    (hfilter : filter_sources sources = .ok relevant) :
    (relevant = [] → run_post_filter device_freq relevant = .ok .idle) ∧
    (∀ s1 s2 rest, relevant = s1 :: s2 :: rest →
      run_post_filter device_freq relevant = .ok .ambiguousSources) := by
  constructor
  · intro h
    subst h
    rfl
  · intro s1 s2 rest h
    subst h
    rfl

/-- Concrete instances of claim C6: a non-running candidate filters to the
empty list (Idle), two running candidates survive together
(AmbiguousSources). -/
theorem C6_witness :
    run_post_filter (.int 48000) ([] : List JVal) = .ok .idle ∧
    run_post_filter (.int 48000) [sampleSource, mismatchSource] = .ok .ambiguousSources :=
  ⟨(C6_source_count_split [idleSource] [] (.int 48000) rfl).1 rfl,
   (C6_source_count_split [sampleSource, mismatchSource] [sampleSource, mismatchSource]
      (.int 48000) rfl).2 sampleSource mismatchSource [] rfl⟩

/-- Claim C7: at the rate-comparison step with a sole running source at unity
volume, a source rate resolved to a known (non-zero integer) value different
from the target rate yields RateMismatch, while an unresolved (`None`)
source rate raises no mismatch and the outcome is Consistent carrying the
target's resolved rate. -/
theorem C7_rate_comparison (device_freq source sf : JVal)
    (hshape : nodeShapeOk source = true)
    (hvol : is_volume_at_100 source = .ok true)
    (hrate : get_node_sample_rate source = .ok sf) :
    (∀ r : Int, sf = .int r → r ≠ 0 → pyEq device_freq sf = false →
      run_post_filter device_freq [source] = .ok .rateMismatch) ∧
    (sf = .null →
      run_post_filter device_freq [source] = .ok (.consistent device_freq)) := by
  obtain ⟨h1, -, -, -⟩ := nodeShapeOk_parts hshape
  constructor
  · intro r hr hr0 hne
    subst hr
    simp only [run_post_filter, hvol, bindE_ok, Bool.not_true, Bool.false_eq_true,
      if_false, hrate, name_eval source hshape, pyGet_obj h1, pureE, hne, truthy]
    simp [hr0]
  · intro hr
    subst hr
    simp only [run_post_filter, hvol, bindE_ok, Bool.not_true, Bool.false_eq_true,
      if_false, hrate, name_eval source hshape, pyGet_obj h1, pureE, truthy]
    simp

/-- Concrete instances of claim C7: a sole source at rate 44100 against a
target rate 48000 (RateMismatch), and a sole source with no resolvable rate
(Consistent 48000). -/
theorem C7_witness :
    run_post_filter (.int 48000) [mismatchSource] = .ok .rateMismatch ∧
    run_post_filter (.int 48000) [unknownRateSource] = .ok (.consistent (.int 48000)) :=
  ⟨(C7_rate_comparison (.int 48000) mismatchSource (.int 44100) rfl rfl rfl).1
      44100 rfl (by decide) rfl,
   (C7_rate_comparison (.int 48000) unknownRateSource .null rfl rfl rfl).2 rfl⟩


/-- Claim C8 (counterexample): an element whose type discriminator is
"NodeLink" contains both tags as substrings, so construction places the very
same element in the node index AND in the link index — the categories are
not mutually exclusive. -/
theorem C8_counterexample :
    PipeWireGraph.build [JVal.obj [("type", JVal.str "NodeLink"), ("id", JVal.int 1)]] =
      .ok ⟨[(JVal.int 1, JVal.obj [("type", JVal.str "NodeLink"), ("id", JVal.int 1)])],
           [(JVal.int 1, JVal.obj [("type", JVal.str "NodeLink"), ("id", JVal.int 1)])]⟩ ∧
    typeMatches "Node" (JVal.obj [("type", JVal.str "NodeLink"), ("id", JVal.int 1)]) = true ∧
    typeMatches "Link" (JVal.obj [("type", JVal.str "NodeLink"), ("id", JVal.int 1)]) = true :=
  ⟨rfl, rfl, rfl⟩

/-- Claim C8 (amended): in a successfully built graph view every node-index
value passed the "Node" tag filter and every link-index value the "Link" tag
filter — hence an element matching neither tag appears in neither index —
and the two indices share no element PROVIDED no element's discriminator
contains both tags, a case the substring matching of the code admits. -/
theorem C8_partition (items : List JVal) (g : PipeWireGraph)
    (h : PipeWireGraph.build items = .ok g) :
    (∀ p ∈ g.nodes, typeMatches "Node" p.2 = true ∧ p.2 ∈ items) ∧
    (∀ p ∈ g.links, typeMatches "Link" p.2 = true ∧ p.2 ∈ items) ∧
    ((∀ it ∈ items, ¬(typeMatches "Node" it = true ∧ typeMatches "Link" it = true)) →
      ∀ p ∈ g.nodes, ∀ q ∈ g.links, p.2 ≠ q.2) := by
  obtain ⟨ns, hns, ls, hls, hg⟩ : ∃ ns, buildIndex "Node" items [] = .ok ns ∧
      ∃ ls, buildIndex "Link" items [] = .ok ls ∧ g = ⟨ns, ls⟩ := by
    unfold PipeWireGraph.build at h
    cases hn : buildIndex "Node" items [] with
    | error e => rw [hn, bindE_err] at h; exact absurd h (by simp)
    | ok ns =>
      rw [hn, bindE_ok] at h
      cases hl : buildIndex "Link" items [] with
      | error e => rw [hl, bindE_err] at h; exact absurd h (by simp)
      | ok ls =>
        rw [hl, bindE_ok, pureE] at h
        injection h with h
        exact ⟨ns, rfl, ls, rfl, h.symm⟩
  subst hg
  have hN : ∀ p ∈ ns, typeMatches "Node" p.2 = true ∧ p.2 ∈ items := by
    intro p hp
    rcases buildIndex_values "Node" items [] ns hns p hp with h1 | ⟨h1, h2⟩
    · simp at h1
    · exact ⟨h2, h1⟩
  have hL : ∀ p ∈ ls, typeMatches "Link" p.2 = true ∧ p.2 ∈ items := by
    intro p hp
    rcases buildIndex_values "Link" items [] ls hls p hp with h1 | ⟨h1, h2⟩
    · simp at h1
    · exact ⟨h2, h1⟩
  refine ⟨hN, hL, ?_⟩
  intro hdisj p hp q hq heq
  obtain ⟨hpN, hpI⟩ := hN p hp
  obtain ⟨hqL, -⟩ := hL q hq
  exact hdisj p.2 hpI ⟨hpN, heq ▸ hqL⟩

/-- Concrete instance of the amended claim C8: in a snapshot holding one node
and one link with distinct tags, the indexed node element and the indexed
link element are distinct. -/
theorem C8_witness : sampleTarget ≠ sampleLink :=
  (C8_partition [sampleTarget, sampleLink]
      ⟨[(.int 10, sampleTarget)], [(.int 30, sampleLink)]⟩ rfl).2.2
    (by
      intro it hit hboth
      simp only [List.mem_cons, List.mem_singleton, List.not_mem_nil, or_false] at hit
      rcases hit with rfl | rfl
      · exact absurd hboth.2 (by decide)
      · exact absurd hboth.1 (by decide))
    (.int 10, sampleTarget) (by simp)
    (.int 30, sampleLink) (by simp)

/-- Claim C9 (counterexample): on a node whose human description is present
but empty, the code's truthiness-based chain skips the description and
returns the raw name, while the claim's first-present rule returns the
empty description; the two disagree on this node. -/
theorem C9_counterexample :
    get_node_descriptive_name emptyDescNode = .ok (.str "raw") ∧
    nameFirstPresent emptyDescNode = .str "" ∧
    get_node_descriptive_name emptyDescNode ≠ .ok (nameFirstPresent emptyDescNode) := by
  refine ⟨rfl, rfl, ?_⟩
  intro h
  have h2 : (Except.ok (JVal.str "raw") : Except PyErr JVal) = .ok (.str "") := h
  injection h2 with h3
  injection h3 with h4
  exact absurd h4 (by decide)

/-- Claim C9 (amended): on every node with object-shaped `info` and `props`
records the descriptive name is the first present AND truthy of the human
description, the owning-application name and the raw internal name, and the
placeholder "Unknown Source" when none is truthy. -/
theorem C9_descriptive_name (node : JVal) (h : nodeShapeOk node = true) :
    get_node_descriptive_name node = .ok (nameFirstTruthy node) :=
  name_eval node h

/-- Concrete instance of the amended claim C9 at a node with a non-empty
description. -/
theorem C9_witness :
    nodeShapeOk sampleTarget = true ∧
    get_node_descriptive_name sampleTarget = .ok (nameFirstTruthy sampleTarget) ∧
    nameFirstTruthy sampleTarget = .str "Speakers" :=
  ⟨rfl, C9_descriptive_name sampleTarget rfl, rfl⟩

/-- Claim C10: a target node whose extracted sample rate is the integer 0 is
handled exactly like an unresolved rate — the run terminates with outcome
Error — and a sole running source whose extracted rate is 0 can never
produce RateMismatch, whatever the target rate and the rest of the source. -/
theorem C10_zero_rate (g : PipeWireGraph) (target_node source device_freq : JVal)
    (htr : get_node_sample_rate target_node = .ok (.int 0))
    (hsr : get_node_sample_rate source = .ok (.int 0)) :
    run_with_target g target_node = .ok .error ∧
    run_post_filter device_freq [source] ≠ .ok .rateMismatch := by
  constructor
  · simp [run_with_target, htr, bindE_ok, truthy]
  · intro hbad
    simp only [run_post_filter] at hbad
    cases hv : is_volume_at_100 source with
    | error e => rw [hv, bindE_err] at hbad; exact absurd hbad (by simp)
    | ok b =>
      rw [hv, bindE_ok] at hbad
      cases b with
      | false => simp at hbad
      | true =>
        rw [hsr] at hbad
        simp only [Bool.not_true, Bool.false_eq_true, if_false, bindE_ok] at hbad
        cases hn : get_node_descriptive_name source with
        | error e => rw [hn, bindE_err] at hbad; exact absurd hbad (by simp)
        | ok nm =>
          rw [hn, bindE_ok] at hbad
          cases hid : pyGet source "id" .null with
          | error e => rw [hid, bindE_err] at hbad; exact absurd hbad (by simp)
          | ok i =>
            rw [hid, bindE_ok] at hbad
            simp [truthy] at hbad

/-- Concrete instance of claim C10 at a node whose active format carries
rate 0. -/
theorem C10_witness :
    run_with_target ⟨[], []⟩ zeroRateNode = .ok .error ∧
    run_post_filter (.int 48000) [zeroRateNode] ≠ .ok .rateMismatch :=
  C10_zero_rate ⟨[], []⟩ zeroRateNode zeroRateNode (.int 48000) rfl rfl

end PW

